import Mathlib

/-!
Shallow embedding of the `closer` package (graceful-shutdown coordinator).

The package keeps a global LIFO stack of cleanup callables (`closerFuncs`),
executes them on an explicit `Exit`, on a caught OS signal, or via the
batch-local trigger returned by `Defer`/`deferFuncs`.  Side effects of the
user callables are modelled by a log of executed action ids; the `OnError`
sink is modelled by a list of reported errors; `os.Exit` is modelled by
returning the exit code.
-/

namespace Closer

/-- A Go `error` value, identified by its message. -/
structure GoError where
  msg : String
deriving DecidableEq, Repr

/-- The value passed to `panic` by a cleanup callable: either a value that
itself implements the `error` interface, or any other value, kept as its
`%v` rendering. -/
inductive PanicValue where
  | errVal (e : GoError)
  | otherVal (rendered : String)
deriving DecidableEq, Repr

/-- What a cleanup callable does when invoked (besides its logged side
effect): return `nil`, return an error, or panic. -/
inductive Outcome where
  | ok
  | err (e : GoError)
  | panics (p : PanicValue)
deriving DecidableEq, Repr

/-- One registered cleanup action: invoking it appends `id` to the side
effect log and then behaves as `outcome` says. -/
structure Action where
  id : Nat
  outcome : Outcome
deriving DecidableEq, Repr

/-- Embeds the struct `closerFunc { fn func() error }`: the callable slot,
`none` once consumed (`cf.fn = nil`). -/
structure closerFunc where
  fn : Option Action
deriving DecidableEq, Repr

/-- The observable side effects of a cleanup pass: `log` records the id of
each action actually invoked, in invocation order; `sink` records the
errors handed to the `OnError` callback, in order. -/
structure CleanupState where
  log : List Nat
  sink : List GoError
deriving DecidableEq, Repr

/-- The package-level configuration variables of `closer.go`:
`ExitWithSignalCode`, `ExitCodeOk`, `ExitCodeErr`, and whether the
`OnError` sink is non-nil. -/
structure Config where
  exitWithSignalCode : Bool
  exitCodeOk : Int
  exitCodeErr : Int
  onErrorSet : Bool
deriving DecidableEq, Repr

/-- The recover branch of `closerFunc.exec`: a recovered panic value that
implements `error` is used as the error unchanged; any other value is
wrapped via `fmt.Errorf("panic: %v", p)`. -/
def recoverToError : PanicValue → GoError
  | .errVal e => e
  | .otherVal s => ⟨"panic: " ++ s⟩

/-- Embeds `(cf *closerFunc) exec() (err error)`.  Returns the error, the
updated `closerFunc` (the receiver is a pointer, so the update is visible
to the caller) and the updated side-effect state.

Go evaluates the right-hand side of `err, cf.fn = cf.fn(), nil` first: the
call `cf.fn()` runs, and only if it returns normally does the assignment
`cf.fn = nil` happen.  If the callable panics, the deferred `recover`
converts the panic into `err`, but `cf.fn` keeps its old value — the slot
is NOT cleared on a panic. -/
def closerFunc.exec (cf : closerFunc) (st : CleanupState) :
    Option GoError × closerFunc × CleanupState :=
  match cf.fn with
  | none => (none, cf, st)
  | some a =>
    let st' : CleanupState := { st with log := st.log ++ [a.id] }
    match a.outcome with
    | .ok => (none, ⟨none⟩, st')
    | .err e => (some e, ⟨none⟩, st')
    | .panics p => (some (recoverToError p), cf, st')

/-- Embeds `(cfs closerFuncs) cleanup() bool`: walk the slice from the last
element down to index 0, `exec` each entry in place, set `errored` when any
`exec` returns a non-nil error, and hand each such error to `OnError` when
the sink is set.  Returns the `errored` flag, the updated slice, and the
updated side-effect state. -/
def cleanup (cfg : Config) : List closerFunc → CleanupState →
    Bool × List closerFunc × CleanupState
  | [], st => (false, [], st)
  | cf :: rest, st =>
    let r := cleanup cfg rest st
    let e := closerFunc.exec cf r.2.2
    match e.1 with
    | none => (r.1, e.2.1 :: r.2.1, e.2.2)
    | some er =>
      (true, e.2.1 :: r.2.1,
        if cfg.onErrorSet then { e.2.2 with sink := e.2.2.sink ++ [er] } else e.2.2)

/-- The argument shapes accepted by `deferFuncs`' type switch: `func()`
(which can still panic but cannot return an error), `func() error`, an
`io.Closer` (whose `Close` has the `func() error` contract), or anything
else (the `default` branch). -/
inductive ActionShape where
  | proc (id : Nat) (panicsWith : Option PanicValue)
  | procErr (a : Action)
  | ioCloser (a : Action)
  | unsupported
deriving DecidableEq, Repr

/-- The message of the panic raised by `deferFuncs` on an unsupported
shape. -/
def shapePanicMsg : String := "supported closers: func(), func() error and io.Closer"

/-- One arm of the type switch in `deferFuncs`: the internal callable a
supported shape is wrapped into, or `none` for the `default` branch. -/
def shapeToFunc : ActionShape → Option closerFunc
  | .proc i pw =>
    some ⟨some ⟨i, match pw with | none => .ok | some p => .panics p⟩⟩
  | .procErr a => some ⟨some a⟩
  | .ioCloser a => some ⟨some a⟩
  | .unsupported => none

/-- The loop of `deferFuncs` that fills the local slice `cfs`: walk the
arguments left to right, wrapping each; the first unsupported shape panics
(modelled as `.error`), abandoning the whole call before anything is
appended to the global stack. -/
def buildFuncs : List ActionShape → Except String (List closerFunc)
  | [] => .ok []
  | s :: rest =>
    match shapeToFunc s with
    | none => .error shapePanicMsg
    | some cf => (buildFuncs rest).map (cf :: ·)

/-- Embeds the `closer` struct together with the observable state of its
signal machinery: `closers` is the global stack, `sigChInitialized` stands
for `c.sigCh != nil`, `listenerCount` counts how many `waitForSignal`
goroutines were ever spawned, `subscribed` is the signal set currently
registered with `signal.Notify` (signals as their numeric values), and
`onceDone` is the state of the embedded `sync.Once` used by `get`. -/
structure CloserState where
  closers : List closerFunc
  sigChInitialized : Bool
  listenerCount : Nat
  subscribed : List Nat
  onceDone : Bool
deriving DecidableEq, Repr

/-- The zero value of the package-level variable `gC`. -/
def initialCloser : CloserState :=
  { closers := [], sigChInitialized := false, listenerCount := 0,
    subscribed := [], onceDone := false }

/-- Embeds `DefaultSignals = []os.Signal{syscall.SIGINT, syscall.SIGHUP,
syscall.SIGTERM}` by the signals' numeric values. -/
def DefaultSignals : List Nat := [2, 1, 15]

/-- Embeds `(c *closer) deferFuncs(fns ...interface\x7b\x7d) func()`.  On
success it returns the new coordinator state (the wrapped callables
appended to the global stack) and the batch captured by the returned
trigger.  `append(c.closers, cfs...)` copies the `closerFunc` STRUCT
VALUES into the global slice's backing array, while the returned closure
keeps the slice `cfs` with its own backing array: the two copies of each
action have independent `fn` slots.  The model makes that explicit by
returning the batch as a list separate from `closers`; invoking the
trigger is `cleanup cfg batch st` and leaves `closers` untouched. -/
def deferFuncs (c : CloserState) (shapes : List ActionShape) :
    Except String (CloserState × List closerFunc) :=
  (buildFuncs shapes).map fun cfs => ({ c with closers := c.closers ++ cfs }, cfs)

/-- Embeds `(c *closer) reinit(force bool, signals ...os.Signal)`: default
the signal set when empty; on first call create the channel and spawn the
single `waitForSignal` goroutine, then subscribe; when already initialized
and not forced, return unchanged; when forced, `signal.Stop` the old
subscription and `signal.Notify` the new set, spawning nothing. -/
def reinit (c : CloserState) (force : Bool) (signals : List Nat) : CloserState :=
  let sigs := if signals.isEmpty then DefaultSignals else signals
  if c.sigChInitialized = false then
    { c with sigChInitialized := true, listenerCount := c.listenerCount + 1,
             subscribed := sigs }
  else if force = false then c
  else { c with subscribed := sigs }

/-- Embeds `get()`: `gC.Do(func() { gC.reinit(false) })` — run
`reinit false` the first time only, guarded by the `sync.Once`. -/
def get (c : CloserState) : CloserState :=
  if c.onceDone then c
  else { reinit c false [] with onceDone := true }

/-- Embeds `SetSignals(signals ...os.Signal)`: `gC.reinit(true, signals...)`. -/
def SetSignals (c : CloserState) (signals : List Nat) : CloserState :=
  reinit c true signals

/-- Embeds `Exit(code int)`: run a full-stack cleanup under the lock, then
`os.Exit` with `code` itself when `code != -1`, otherwise with
`ExitCodeErr` when some deferred call returned an error and `ExitCodeOk`
when none did.  `os.Exit` is modelled by returning the exit code. -/
def Exit (cfg : Config) (c : CloserState) (st : CleanupState) (code : Int) :
    CloserState × CleanupState × Int :=
  let c1 := get c
  let r := cleanup cfg c1.closers st
  let c2 := { c1 with closers := r.2.1 }
  if code ≠ -1 then (c2, r.2.2, code)
  else if r.1 then (c2, r.2.2, cfg.exitCodeErr)
  else (c2, r.2.2, cfg.exitCodeOk)

/-- An `os.Signal` received on the channel: either a `syscall.Signal`
(which carries a numeric value) or some other implementation of the
interface. -/
inductive OsSignal where
  | posix (n : Int)
  | named (s : String)
deriving DecidableEq, Repr

/-- Embeds one iteration of `(c *closer) waitForSignal()`: on a received
signal, run the full-stack cleanup under the lock, then `os.Exit` with the
signal's numeric value when it is a `syscall.Signal` and
`ExitWithSignalCode` is set, and with `ExitCodeErr` otherwise. -/
def handleSignal (cfg : Config) (c : CloserState) (st : CleanupState)
    (sig : OsSignal) : CloserState × CleanupState × Int :=
  let r := cleanup cfg c.closers st
  let c' := { c with closers := r.2.1 }
  match sig with
  | .posix n =>
    if cfg.exitWithSignalCode then (c', r.2.2, n) else (c', r.2.2, cfg.exitCodeErr)
  | .named _ => (c', r.2.2, cfg.exitCodeErr)

/-- The operations that touch the coordinator's initialization state:
`get()` (reached from `Defer` and `Exit`), `SetSignals`, and a raw
`reinit`. -/
inductive CoordOp where
  | opGet
  | opSetSignals (signals : List Nat)
  | opReinit (force : Bool) (signals : List Nat)
deriving DecidableEq, Repr

/-- Apply one coordinator operation. -/
def applyOp (c : CloserState) : CoordOp → CloserState
  | .opGet => get c
  | .opSetSignals sigs => SetSignals c sigs
  | .opReinit f sigs => reinit c f sigs

/-- Apply a sequence of coordinator operations, left to right. -/
def applyOps (c : CloserState) : List CoordOp → CloserState
  | [] => c
  | op :: rest => applyOps (applyOp c op) rest

/-- The package defaults: `ExitWithSignalCode = false`, `ExitCodeOk = 0`,
`ExitCodeErr = 1`, `OnError = nil`. -/
def goDefaults : Config :=
  { exitWithSignalCode := false, exitCodeOk := 0, exitCodeErr := 1,
    onErrorSet := false }

/-- Whether an entry's `exec` reports a non-nil error: a pending action
that returns an error or panics. -/
def hasErr (cf : closerFunc) : Bool :=
  match cf.fn with
  | none => false
  | some a =>
    match a.outcome with
    | .ok => false
    | .err _ => true
    | .panics _ => true

/-- What one `exec` leaves in the entry's `fn` slot: consumed on a normal
return, untouched when already consumed or when the callable panics. -/
def consumeOne (cf : closerFunc) : closerFunc :=
  match cf.fn with
  | none => cf
  | some a =>
    match a.outcome with
    | .ok => ⟨none⟩
    | .err _ => ⟨none⟩
    | .panics _ => cf

/-- The errors one entry contributes to the `OnError` sink. -/
def errOf (cf : closerFunc) : List GoError :=
  match cf.fn with
  | none => []
  | some a =>
    match a.outcome with
    | .ok => []
    | .err e => [e]
    | .panics p => [recoverToError p]

/-- All errors a cleanup pass reports, in report order (the pass walks the
list from its last entry to its first). -/
def errorsOf : List closerFunc → List GoError
  | [] => []
  | cf :: rest => errorsOf rest ++ errOf cf

/-- An action that does not panic when invoked. -/
def nonPanicking (a : Action) : Bool :=
  match a.outcome with
  | .panics _ => false
  | _ => true

/-- The coupling between the listener count and the channel state: a
listener goroutine exists exactly when `sigCh` was allocated. -/
def listenerInv (c : CloserState) : Prop :=
  c.listenerCount = if c.sigChInitialized then 1 else 0

/-- A fresh side-effect state: empty log, empty sink. -/
def emptyCleanupState : CleanupState := ⟨[], []⟩

/-- A two-action batch mirroring the package's own `TestCloser` test. -/
def demoBatch : List closerFunc :=
  [closerFunc.mk (some ⟨1, .ok⟩), closerFunc.mk (some ⟨0, .ok⟩)]

/-- The defaults with an `OnError` sink installed. -/
def panicDemoCfg : Config :=
  { exitWithSignalCode := false, exitCodeOk := 0, exitCodeErr := 1,
    onErrorSet := true }

/-- A batch slice placed before a panicking entry. -/
def demoPre : List closerFunc := [closerFunc.mk (some ⟨2, .ok⟩)]

/-- A batch slice placed after a panicking entry. -/
def demoPost : List closerFunc := [closerFunc.mk (some ⟨1, .ok⟩)]

/-- A concrete panicking action. -/
def demoPanicAction : Action := ⟨5, .panics (.otherVal "boom")⟩

/-- A configuration with distinctive success and failure exit codes. -/
def exitDemoCfg : Config :=
  { exitWithSignalCode := false, exitCodeOk := 10, exitCodeErr := 20,
    onErrorSet := false }

/-- A coordinator whose stack holds one failing action. -/
def exitDemoCloser : CloserState :=
  { initialCloser with closers := [closerFunc.mk (some ⟨0, .err ⟨"e"⟩⟩)] }

/-- A concrete sequence of initialization operations. -/
def demoOps : List CoordOp :=
  [CoordOp.opGet, CoordOp.opGet, CoordOp.opSetSignals [9],
   CoordOp.opReinit false [3]]

/-- An already-initialized coordinator. -/
def demoInitialized : CloserState :=
  { initialCloser with
    sigChInitialized := true, listenerCount := 1, onceDone := true }

theorem cleanup_log (cfg : Config) (cfs : List closerFunc) (st : CleanupState) :
    (cleanup cfg cfs st).2.2.log
      = st.log ++ ((cfs.filterMap closerFunc.fn).map Action.id).reverse := by
  induction cfs generalizing st with
  | nil => simp [cleanup]
  | cons cf rest ih =>
    obtain ⟨fn⟩ := cf
    match fn with
    | none => simpa [cleanup, closerFunc.exec] using ih st
    | some a =>
      match ho : a.outcome with
      | .ok => simp [cleanup, closerFunc.exec, ho, ih st]
      | .err e =>
        by_cases hc : cfg.onErrorSet <;>
          simp [cleanup, closerFunc.exec, ho, hc, ih st]
      | .panics p =>
        by_cases hc : cfg.onErrorSet <;>
          simp [cleanup, closerFunc.exec, ho, hc, ih st]

theorem cleanup_errored (cfg : Config) (cfs : List closerFunc) (st : CleanupState) :
    (cleanup cfg cfs st).1 = cfs.any hasErr := by
  induction cfs generalizing st with
  | nil => simp [cleanup]
  | cons cf rest ih =>
    obtain ⟨fn⟩ := cf
    match fn with
    | none => simpa [cleanup, closerFunc.exec, hasErr] using ih st
    | some a =>
      match ho : a.outcome with
      | .ok => simp [cleanup, closerFunc.exec, hasErr, ho, ih st]
      | .err e =>
        by_cases hc : cfg.onErrorSet <;>
          simp [cleanup, closerFunc.exec, hasErr, ho, hc]
      | .panics p =>
        by_cases hc : cfg.onErrorSet <;>
          simp [cleanup, closerFunc.exec, hasErr, ho, hc]

theorem cleanup_funcs (cfg : Config) (cfs : List closerFunc) (st : CleanupState) :
    (cleanup cfg cfs st).2.1 = cfs.map consumeOne := by
  induction cfs generalizing st with
  | nil => simp [cleanup]
  | cons cf rest ih =>
    obtain ⟨fn⟩ := cf
    match fn with
    | none => simpa [cleanup, closerFunc.exec, consumeOne] using ih st
    | some a =>
      match ho : a.outcome with
      | .ok => simp [cleanup, closerFunc.exec, consumeOne, ho, ih st]
      | .err e =>
        by_cases hc : cfg.onErrorSet <;>
          simp [cleanup, closerFunc.exec, consumeOne, ho, hc, ih st]
      | .panics p =>
        by_cases hc : cfg.onErrorSet <;>
          simp [cleanup, closerFunc.exec, consumeOne, ho, hc, ih st]

theorem cleanup_sink (cfg : Config) (cfs : List closerFunc) (st : CleanupState)
    (h : cfg.onErrorSet = true) :
    (cleanup cfg cfs st).2.2.sink = st.sink ++ errorsOf cfs := by
  induction cfs generalizing st with
  | nil => simp [cleanup, errorsOf]
  | cons cf rest ih =>
    obtain ⟨fn⟩ := cf
    match fn with
    | none => simpa [cleanup, closerFunc.exec, errorsOf, errOf] using ih st
    | some a =>
      match ho : a.outcome with
      | .ok => simp [cleanup, closerFunc.exec, errorsOf, errOf, ho, ih st]
      | .err e => simp [cleanup, closerFunc.exec, errorsOf, errOf, ho, h, ih st]
      | .panics p => simp [cleanup, closerFunc.exec, errorsOf, errOf, ho, h, ih st]

theorem cleanup_noop (cfg : Config) (cfs : List closerFunc) (st : CleanupState)
    (h : ∀ cf ∈ cfs, cf.fn = none) :
    cleanup cfg cfs st = (false, cfs, st) := by
  induction cfs generalizing st with
  | nil => simp [cleanup]
  | cons cf rest ih =>
    have hcf : cf.fn = none := h cf (List.mem_cons_self _ _)
    have hrest : ∀ x ∈ rest, x.fn = none := fun x hx => h x (List.mem_cons_of_mem _ hx)
    obtain ⟨fn⟩ := cf
    simp only at hcf
    subst hcf
    simp [cleanup, closerFunc.exec, ih st hrest]

theorem errorsOf_append (xs ys : List closerFunc) :
    errorsOf (xs ++ ys) = errorsOf ys ++ errorsOf xs := by
  induction xs with
  | nil => simp [errorsOf]
  | cons cf rest ih => simp [errorsOf, ih, List.append_assoc]

theorem buildFuncs_procErr (as : List Action) :
    buildFuncs (as.map ActionShape.procErr)
      = Except.ok (as.map fun a => closerFunc.mk (some a)) := by
  induction as with
  | nil => simp [buildFuncs]
  | cons a rest ih => simp [buildFuncs, shapeToFunc, ih, Except.map]

theorem buildFuncs_error_of_unsupported (shapes : List ActionShape)
    (h : ActionShape.unsupported ∈ shapes) :
    buildFuncs shapes = Except.error shapePanicMsg := by
  induction shapes with
  | nil => cases h
  | cons s rest ih =>
    rcases List.mem_cons.mp h with hs | hs
    · rw [← hs]
      rfl
    · match s with
      | .unsupported => rfl
      | .proc i pw => simp [buildFuncs, shapeToFunc, ih hs, Except.map]
      | .procErr a => simp [buildFuncs, shapeToFunc, ih hs, Except.map]
      | .ioCloser a => simp [buildFuncs, shapeToFunc, ih hs, Except.map]

theorem filterMap_mk_some (as : List Action) :
    (as.map fun a => closerFunc.mk (some a)).filterMap closerFunc.fn = as := by
  induction as with
  | nil => simp
  | cons a rest ih => simp [ih]

theorem get_closers (c : CloserState) : (get c).closers = c.closers := by
  by_cases h : c.onceDone
  · simp [get, h]
  · simp [get, reinit, h]
    split
    · rfl
    · rfl

theorem Exit_cleanupState (cfg : Config) (c : CloserState) (st : CleanupState)
    (code : Int) :
    (Exit cfg c st code).2.1 = (cleanup cfg (get c).closers st).2.2 := by
  simp only [Exit]
  split
  · rfl
  · split <;> rfl

theorem reinit_inv (c : CloserState) (f : Bool) (sigs : List Nat)
    (h : listenerInv c) : listenerInv (reinit c f sigs) := by
  unfold listenerInv at h ⊢
  cases hb : c.sigChInitialized with
  | false =>
    simp [hb] at h
    simp [reinit, hb, h]
  | true =>
    simp [hb] at h
    cases f with
    | false => simp [reinit, hb, h]
    | true => simp [reinit, hb, h]

theorem get_inv (c : CloserState) (h : listenerInv c) : listenerInv (get c) := by
  unfold get
  split
  · exact h
  · exact reinit_inv c false [] h

theorem applyOp_inv (c : CloserState) (op : CoordOp) (h : listenerInv c) :
    listenerInv (applyOp c op) := by
  cases op with
  | opGet => exact get_inv c h
  | opSetSignals sigs => exact reinit_inv c true sigs h
  | opReinit f sigs => exact reinit_inv c f sigs h

theorem applyOps_inv (c : CloserState) (ops : List CoordOp) (h : listenerInv c) :
    listenerInv (applyOps c ops) := by
  induction ops generalizing c with
  | nil => exact h
  | cons op rest ih => exact ih (applyOp c op) (applyOp_inv c op h)

/-- C2 (corrected): after `exec` runs a pending action, the callable slot
is cleared exactly when the callable returned (successfully or with an
error); when the callable panicked, the slot keeps the action, so only in
the non-panicking cases is a re-execution a no-op.  An already-consumed
entry is a no-op and never an error. -/
theorem exec_clears_fn_unless_panic (a : Action) (st : CleanupState) :
    (closerFunc.exec ⟨some a⟩ st).2.1.fn
      = (match a.outcome with
         | .panics _ => some a
         | _ => none)
    ∧ closerFunc.exec ⟨none⟩ st = (none, ⟨none⟩, st) := by
  refine ⟨?_, rfl⟩
  match ho : a.outcome with
  | .ok => simp [closerFunc.exec, ho]
  | .err e => simp [closerFunc.exec, ho]
  | .panics p => simp [closerFunc.exec, ho]

/-- C2 counterexample: a callable that panics is NOT cleared by `exec` —
the Go tuple assignment never reaches `cf.fn = nil` — and a second `exec`
runs the same callable again (the log gets its id twice), returning an
error again rather than being a no-op. -/
theorem exec_panic_leaves_fn_cex :
    (closerFunc.exec ⟨some ⟨0, .panics (.otherVal "boom")⟩⟩ ⟨[], []⟩).2.1
        = ⟨some ⟨0, .panics (.otherVal "boom")⟩⟩
    ∧ (closerFunc.exec
          (closerFunc.exec ⟨some ⟨0, .panics (.otherVal "boom")⟩⟩ ⟨[], []⟩).2.1
          (closerFunc.exec ⟨some ⟨0, .panics (.otherVal "boom")⟩⟩ ⟨[], []⟩).2.2).2.2.log
        = [0, 0]
    ∧ (closerFunc.exec
          (closerFunc.exec ⟨some ⟨0, .panics (.otherVal "boom")⟩⟩ ⟨[], []⟩).2.1
          (closerFunc.exec ⟨some ⟨0, .panics (.otherVal "boom")⟩⟩ ⟨[], []⟩).2.2).1
        = some ⟨"panic: boom"⟩ :=
  ⟨rfl, rfl, rfl⟩

/-- C3: registering a batch of N actions stores exactly that batch and
returns a trigger over it; invoking the trigger executes the pending
actions in exactly reverse registration order, appending each action's id
to the log once (the log grows by the reversed id sequence). -/
theorem trigger_executes_reverse_order (cfg : Config) (as : List Action)
    (c : CloserState) (st : CleanupState) :
    deferFuncs c (as.map ActionShape.procErr)
      = Except.ok
          ({ c with closers := c.closers ++ as.map fun a => closerFunc.mk (some a) },
           as.map fun a => closerFunc.mk (some a))
    ∧ (cleanup cfg (as.map fun a => closerFunc.mk (some a)) st).2.2.log
      = st.log ++ (as.map Action.id).reverse := by
  constructor
  · simp [deferFuncs, buildFuncs_procErr, Except.map]
  · rw [cleanup_log, filterMap_mk_some]

/-- C4 (corrected): provided no pending action in the batch panics,
invoking the trigger twice produces exactly one execution per action: the
first invocation executes each pending action, and the second invocation
returns without executing anything (result, entries, and side-effect state
all unchanged). -/
theorem trigger_twice_once_per_action_no_panic (cfg : Config)
    (cfs : List closerFunc) (st : CleanupState)
    (h : (cfs.filterMap closerFunc.fn).all nonPanicking = true) :
    (cleanup cfg cfs st).2.2.log
      = st.log ++ ((cfs.filterMap closerFunc.fn).map Action.id).reverse
    ∧ cleanup cfg (cleanup cfg cfs st).2.1 (cleanup cfg cfs st).2.2
      = (false, (cleanup cfg cfs st).2.1, (cleanup cfg cfs st).2.2) := by
  refine ⟨cleanup_log cfg cfs st, ?_⟩
  apply cleanup_noop
  rw [cleanup_funcs]
  intro x hx
  obtain ⟨cf, hcf, rfl⟩ := List.mem_map.mp hx
  match hfn : cf.fn with
  | none => simp [consumeOne, hfn]
  | some a =>
    have ha : a ∈ cfs.filterMap closerFunc.fn :=
      List.mem_filterMap.mpr ⟨cf, hcf, hfn⟩
    have hnp := List.all_eq_true.mp h a ha
    match ho : a.outcome with
    | .ok => simp [consumeOne, hfn, ho]
    | .err e => simp [consumeOne, hfn, ho]
    | .panics p => simp [nonPanicking, ho] at hnp

/-- C4 witness: the amended idempotence at the batch of the package's own
`TestCloser` test. -/
theorem trigger_twice_once_per_action_no_panic_witness :
    ((demoBatch.filterMap closerFunc.fn).all nonPanicking = true)
    ∧ ((cleanup goDefaults demoBatch emptyCleanupState).2.2.log
        = emptyCleanupState.log
          ++ ((demoBatch.filterMap closerFunc.fn).map Action.id).reverse
      ∧ cleanup goDefaults (cleanup goDefaults demoBatch emptyCleanupState).2.1
          (cleanup goDefaults demoBatch emptyCleanupState).2.2
        = (false, (cleanup goDefaults demoBatch emptyCleanupState).2.1,
           (cleanup goDefaults demoBatch emptyCleanupState).2.2)) :=
  ⟨by decide,
   trigger_twice_once_per_action_no_panic goDefaults demoBatch
     emptyCleanupState (by decide)⟩

/-- C4 counterexample: for a batch holding one panicking action, invoking
the trigger twice executes the action twice (its id is logged twice), so
the second invocation is not a no-op. -/
theorem trigger_twice_panic_cex :
    (cleanup goDefaults
        (cleanup goDefaults
          [closerFunc.mk (some ⟨0, .panics (.otherVal "x")⟩)]
          ⟨[], []⟩).2.1
        (cleanup goDefaults
          [closerFunc.mk (some ⟨0, .panics (.otherVal "x")⟩)]
          ⟨[], []⟩).2.2).2.2.log
      = [0, 0] := rfl

/-- C7: when a pending action anywhere in the pass panics, the pass
reports a failure (`errored = true`), the converted panic error reaches
the sink when one is set, and every other pending action in the pass still
executes (the log covers the whole list, in reverse order). -/
theorem panic_reported_and_pass_continues (cfg : Config)
    (pre post : List closerFunc) (a : Action) (p : PanicValue)
    (st : CleanupState) (hout : a.outcome = Outcome.panics p)
    (hsink : cfg.onErrorSet = true) :
    (cleanup cfg (pre ++ closerFunc.mk (some a) :: post) st).1 = true
    ∧ recoverToError p
        ∈ (cleanup cfg (pre ++ closerFunc.mk (some a) :: post) st).2.2.sink
    ∧ (cleanup cfg (pre ++ closerFunc.mk (some a) :: post) st).2.2.log
      = st.log
        ++ ((((pre ++ closerFunc.mk (some a) :: post).filterMap
              closerFunc.fn).map Action.id).reverse) := by
  refine ⟨?_, ?_, cleanup_log _ _ _⟩
  · rw [cleanup_errored]
    simp [List.any_append, hasErr, hout]
  · rw [cleanup_sink _ _ _ hsink, errorsOf_append]
    simp [errorsOf, errOf, hout]

/-- C7 witness: a panicking action between two healthy ones. -/
theorem panic_reported_and_pass_continues_witness :
    (demoPanicAction.outcome = Outcome.panics (PanicValue.otherVal "boom")
      ∧ panicDemoCfg.onErrorSet = true)
    ∧ ((cleanup panicDemoCfg
          (demoPre ++ closerFunc.mk (some demoPanicAction) :: demoPost)
          emptyCleanupState).1 = true
      ∧ recoverToError (PanicValue.otherVal "boom")
          ∈ (cleanup panicDemoCfg
              (demoPre ++ closerFunc.mk (some demoPanicAction) :: demoPost)
              emptyCleanupState).2.2.sink
      ∧ (cleanup panicDemoCfg
            (demoPre ++ closerFunc.mk (some demoPanicAction) :: demoPost)
            emptyCleanupState).2.2.log
        = emptyCleanupState.log
          ++ ((((demoPre ++ closerFunc.mk (some demoPanicAction) :: demoPost).filterMap
                closerFunc.fn).map Action.id).reverse)) :=
  ⟨⟨rfl, rfl⟩,
   panic_reported_and_pass_continues panicDemoCfg demoPre demoPost
     demoPanicAction (PanicValue.otherVal "boom") emptyCleanupState rfl rfl⟩

/-- C10: a recovered panic value that itself implements `error` reaches
the sink unchanged; a non-error panic value is wrapped into the generic
error `panic: <value>`. -/
theorem panic_error_value_reported_unchanged (cfg : Config)
    (st : CleanupState) (i j : Nat) (e : GoError) (s : String)
    (h : cfg.onErrorSet = true) :
    (cleanup cfg [closerFunc.mk (some ⟨i, .panics (.errVal e)⟩)] st).2.2.sink
      = st.sink ++ [e]
    ∧ (cleanup cfg [closerFunc.mk (some ⟨j, .panics (.otherVal s)⟩)] st).2.2.sink
      = st.sink ++ [GoError.mk ("panic: " ++ s)] := by
  constructor
  · simp [cleanup, closerFunc.exec, recoverToError, h]
  · simp [cleanup, closerFunc.exec, recoverToError, h]

/-- C10 witness: an error-valued panic is reported as-is; a string-valued
panic is wrapped. -/
theorem panic_error_value_reported_unchanged_witness :
    panicDemoCfg.onErrorSet = true
    ∧ ((cleanup panicDemoCfg
          [closerFunc.mk (some ⟨0, .panics (.errVal ⟨"myerr"⟩)⟩)]
          emptyCleanupState).2.2.sink
        = emptyCleanupState.sink ++ [(⟨"myerr"⟩ : GoError)]
      ∧ (cleanup panicDemoCfg
          [closerFunc.mk (some ⟨1, .panics (.otherVal "pv")⟩)]
          emptyCleanupState).2.2.sink
        = emptyCleanupState.sink ++ [GoError.mk ("panic: " ++ "pv")]) :=
  ⟨rfl,
   panic_error_value_reported_unchanged panicDemoCfg emptyCleanupState
     0 1 ⟨"myerr"⟩ "pv" rfl⟩

/-- C1 (corrected): registering a batch appends independent COPIES of the
batch's entries to the global stack, so executing the actions via the
batch-local trigger consumes only the trigger's copies; the global-stack
copies stay pending, and a later full-stack cleanup (`Exit` with any
code) executes every action of the batch a second time: the final log is
the reversed id sequence twice. -/
theorem trigger_consumes_only_local_batch (cfg : Config) (as : List Action)
    (code : Int) :
    deferFuncs initialCloser (as.map ActionShape.procErr)
      = Except.ok
          ({ initialCloser with
             closers := as.map fun a => closerFunc.mk (some a) },
           as.map fun a => closerFunc.mk (some a))
    ∧ (Exit cfg
        { initialCloser with
          closers := as.map fun a => closerFunc.mk (some a) }
        (cleanup cfg (as.map fun a => closerFunc.mk (some a)) ⟨[], []⟩).2.2
        code).2.1.log
      = (as.map Action.id).reverse ++ (as.map Action.id).reverse := by
  constructor
  · simp [deferFuncs, buildFuncs_procErr, Except.map, initialCloser]
  · rw [Exit_cleanupState, get_closers]
    show (cleanup cfg (as.map fun a => closerFunc.mk (some a)) _).2.2.log = _
    rw [cleanup_log, cleanup_log, filterMap_mk_some]
    simp

/-- C1 counterexample: one action registered from the package's zero
state, executed through its trigger, is executed AGAIN by `Exit`: it
appears twice in the log instead of once. -/
theorem trigger_then_exit_runs_action_twice_cex :
    (deferFuncs initialCloser [ActionShape.procErr ⟨0, Outcome.ok⟩]).map
        (fun reg =>
          (Exit goDefaults reg.1
            (cleanup goDefaults reg.2 ⟨[], []⟩).2.2 (-1)).2.1.log)
      = Except.ok [0, 0] := rfl

/-- C5: `Exit` always runs a full-stack cleanup first; with a non-sentinel
code it exits with exactly that code regardless of the cleanup outcome,
and with the sentinel `-1` it exits with `ExitCodeErr` when some action
failed and `ExitCodeOk` when none did. -/
theorem exit_code_policy (cfg : Config) (c : CloserState) (st : CleanupState)
    (code : Int) (h : code ≠ -1) :
    (Exit cfg c st code).2.2 = code
    ∧ (Exit cfg c st (-1)).2.2
      = (if (cleanup cfg (get c).closers st).1 then cfg.exitCodeErr
         else cfg.exitCodeOk)
    ∧ (Exit cfg c st code).2.1 = (cleanup cfg (get c).closers st).2.2
    ∧ (Exit cfg c st (-1)).2.1 = (cleanup cfg (get c).closers st).2.2 := by
  refine ⟨?_, ?_, Exit_cleanupState cfg c st code, Exit_cleanupState cfg c st (-1)⟩
  · simp [Exit, h]
  · by_cases hr : (cleanup cfg (get c).closers st).1 <;> simp [Exit, hr]

/-- C5 witness: with success code 10 and failure code 20, a stack holding
one failing action makes `Exit (-1)` exit with 20, while `Exit 42` exits
with 42. -/
theorem exit_code_policy_witness :
    ((42 : Int) ≠ -1)
    ∧ ((Exit exitDemoCfg exitDemoCloser emptyCleanupState 42).2.2 = 42
      ∧ (Exit exitDemoCfg exitDemoCloser emptyCleanupState (-1)).2.2
        = (if (cleanup exitDemoCfg (get exitDemoCloser).closers
                emptyCleanupState).1
           then exitDemoCfg.exitCodeErr else exitDemoCfg.exitCodeOk)
      ∧ (Exit exitDemoCfg exitDemoCloser emptyCleanupState 42).2.1
        = (cleanup exitDemoCfg (get exitDemoCloser).closers
            emptyCleanupState).2.2
      ∧ (Exit exitDemoCfg exitDemoCloser emptyCleanupState (-1)).2.1
        = (cleanup exitDemoCfg (get exitDemoCloser).closers
            emptyCleanupState).2.2) :=
  ⟨by decide,
   exit_code_policy exitDemoCfg exitDemoCloser emptyCleanupState 42 (by decide)⟩

/-- C6: on a received signal the listener runs the full-stack cleanup and
then exits with the signal's numeric value when `ExitWithSignalCode` is
set and the notification is a `syscall.Signal`, and with `ExitCodeErr`
otherwise (flag unset, or a non-numeric signal implementation). -/
theorem signal_exit_policy (cfg : Config) (c : CloserState)
    (st : CleanupState) (n : Int) (s : String) :
    (handleSignal cfg c st (.posix n)).2.2
      = (if cfg.exitWithSignalCode then n else cfg.exitCodeErr)
    ∧ (handleSignal cfg c st (.named s)).2.2 = cfg.exitCodeErr
    ∧ (handleSignal cfg c st (.posix n)).2.1 = (cleanup cfg c.closers st).2.2
    ∧ (handleSignal cfg c st (.named s)).2.1 = (cleanup cfg c.closers st).2.2
    ∧ (handleSignal cfg c st (.posix n)).1.closers
      = (cleanup cfg c.closers st).2.1 := by
  cases hb : cfg.exitWithSignalCode <;> simp [handleSignal, hb]

/-- C8: over any sequence of `get`/`SetSignals`/`reinit` operations from
the zero state, at most one listener goroutine is ever spawned; a
non-forced `reinit` on an initialized coordinator is a no-op, and a forced
`reinit` replaces the subscription (defaulting an empty set) without
spawning another listener and without touching the stack. -/
theorem listener_started_at_most_once (ops : List CoordOp) (c : CloserState)
    (sigs : List Nat) (h : c.sigChInitialized = true) :
    (applyOps initialCloser ops).listenerCount ≤ 1
    ∧ reinit c false sigs = c
    ∧ (reinit c true sigs).listenerCount = c.listenerCount
    ∧ (reinit c true sigs).sigChInitialized = true
    ∧ (reinit c true sigs).subscribed
      = (if sigs.isEmpty then DefaultSignals else sigs)
    ∧ (reinit c true sigs).closers = c.closers := by
  refine ⟨?_, ?_, ?_, ?_, ?_, ?_⟩
  · have hinv : listenerInv (applyOps initialCloser ops) :=
      applyOps_inv initialCloser ops (by simp [listenerInv, initialCloser])
    unfold listenerInv at hinv
    rw [hinv]
    split
    · exact le_refl 1
    · exact Nat.zero_le 1
  all_goals simp [reinit, h]

/-- C8 witness: two `get`s, a forced re-subscription and a non-forced
`reinit` from the zero state spawn one listener in total; the explicit
facts are checked on an already-initialized coordinator. -/
theorem listener_started_at_most_once_witness :
    demoInitialized.sigChInitialized = true
    ∧ ((applyOps initialCloser demoOps).listenerCount ≤ 1
      ∧ reinit demoInitialized false [7] = demoInitialized
      ∧ (reinit demoInitialized true [7]).listenerCount
        = demoInitialized.listenerCount
      ∧ (reinit demoInitialized true [7]).sigChInitialized = true
      ∧ (reinit demoInitialized true [7]).subscribed
        = (if ([7] : List Nat).isEmpty then DefaultSignals else [7])
      ∧ (reinit demoInitialized true [7]).closers
        = demoInitialized.closers) :=
  ⟨rfl, listener_started_at_most_once demoOps demoInitialized [7] rfl⟩

/-- C9: registering any argument list containing an unsupported shape
panics with the contract-violation message at registration time; the call
aborts before anything is appended to the global stack (the model returns
no successor state), so the failure is never deferred to cleanup time. -/
theorem unsupported_shape_fails_at_registration (c : CloserState)
    (shapes : List ActionShape) (h : ActionShape.unsupported ∈ shapes) :
    deferFuncs c shapes = Except.error shapePanicMsg := by
  simp [deferFuncs, buildFuncs_error_of_unsupported shapes h, Except.map]

/-- C9 witness: a valid `func()` followed by an unsupported argument makes
the whole registration panic. -/
theorem unsupported_shape_fails_at_registration_witness :
    ActionShape.unsupported ∈ [ActionShape.proc 0 none, ActionShape.unsupported]
    ∧ deferFuncs initialCloser
        [ActionShape.proc 0 none, ActionShape.unsupported]
      = Except.error shapePanicMsg :=
  ⟨by decide,
   unsupported_shape_fails_at_registration initialCloser
     [ActionShape.proc 0 none, ActionShape.unsupported] (by decide)⟩

end Closer
